import Mathlib

/-!
Verification of the passkey (WebAuthn) ceremony module of hackerspub:
`getRegistrationOptions`, `verifyRegistration`, `getAuthenticationOptions`,
`verifyAuthentication`, the Keyv-backed challenge store and the
`passkeyTable` credential repository.
-/

namespace HackersPub

/-- A registered passkey row of `passkeyTable`.  The fields mirror the insert
in `verifyRegistration` plus the two columns touched by `verifyAuthentication`
(`counter`, `lastUsed`).  `created` and `lastUsed` are filled by column
defaults of the schema (`created` defaults to the insertion time, `lastUsed`
to NULL).  The `bigint` counter is modelled as `Nat`. -/
structure Passkey where
  id : String
  accountId : String
  name : String
  publicKey : List Nat
  webauthnUserId : String
  counter : Nat
  deviceType : String
  backedUp : Bool
  transports : Option (List String)
  created : Nat
  lastUsed : Option Nat
deriving DecidableEq

/-- The slice of an `Account` row the ceremony module reads. -/
structure Account where
  id : String
  username : String
deriving DecidableEq

/-- The two components derived from the configured `origin` string:
`new URL(origin).origin` and `new URL(origin).hostname`.  URL parsing itself
is outside the module; the two derived components are taken as given. -/
structure OriginUrl where
  origin : String
  hostname : String
deriving DecidableEq

/-- One element of `excludeCredentials`: `{ id, transports }`. -/
structure CredDescriptor where
  id : String
  transports : Option (List String)
deriving DecidableEq

/-- `PublicKeyCredentialCreationOptionsJSON` as produced by
`generateRegistrationOptions` and stored in the Keyv store.  The nested
`user.id` is flattened to `userId`; the random challenge is modelled as a
`Nat`. -/
structure CreationOptions where
  rpName : String
  rpID : String
  userName : String
  userId : String
  challenge : Nat
  excludeCredentials : List CredDescriptor
deriving DecidableEq

/-- `PublicKeyCredentialRequestOptionsJSON` as produced by
`generateAuthenticationOptions`. -/
structure RequestOptions where
  rpID : String
  challenge : Nat
deriving DecidableEq

/-- One Keyv key family: stored value together with its optional absolute
expiry time (milliseconds).  `kv.set(key, v)` stores no expiry;
`kv.set(key, v, ttl)` stores `now + ttl`. -/
abbrev KvMap (α : Type) : Type := String → Option (α × Option Nat)

def kvSet {α : Type} (m : KvMap α) (now : Nat) (key : String) (v : α)
    (ttl : Option Nat) : KvMap α :=
  fun k => if k = key then some (v, ttl.map fun t => now + t) else m k

/-- Keyv `get`: an entry whose expiry has passed is treated as absent
(Keyv reports a value as expired exactly when the current time exceeds the
stored expiry). -/
def kvGet {α : Type} (m : KvMap α) (now : Nat) (key : String) : Option α :=
  match m key with
  | none => none
  | some (v, none) => some v
  | some (v, some exp) => if now ≤ exp then some v else none

def kvEmpty {α : Type} : KvMap α := fun _ => none

/-- The Keyv store used by the module.  Every key carries the
`KV_NAMESPACE = "passkey"` prefix and then one of the two disjoint key
families `passkey/registration/<accountId>` and
`passkey/authentication/<sessionId>`; the two families are modelled as two
separate maps keyed by the account id resp. session id. -/
structure Keyv where
  reg : KvMap CreationOptions
  auth : KvMap RequestOptions

def KV_NAMESPACE : String := "passkey"

/-- `RP_NAME`; the apostrophe of the source literal is written via its code
point. -/
def RP_NAME : String := "Hackers" ++ String.singleton (Char.ofNat 39) ++ " Pub"

/-- `getRegistrationOptions(kv, origin, account)`.  The library call
`generateRegistrationOptions` mints a random challenge and WebAuthn user id;
those two random values are taken as the parameters `challenge` and `userId`.
The produced options are stored at `passkey/registration/<account.id>` with
no TTL, and returned. -/
def getRegistrationOptions (kv : Keyv) (now : Nat) (origin : OriginUrl)
    (account : Account) (passkeys : List Passkey)
    (challenge : Nat) (userId : String) : CreationOptions × Keyv :=
  let options : CreationOptions :=
    { rpName := RP_NAME
      rpID := origin.hostname
      userName := account.username
      userId := userId
      challenge := challenge
      excludeCredentials := passkeys.map fun passkey =>
        { id := passkey.id, transports := passkey.transports } }
  (options, { kv with reg := kvSet kv.reg now account.id options none })

/-- A client attestation response (`RegistrationResponseJSON`), abstracted to
what the Credential Verifier extracts from it: the new credential's data, the
challenge / origin / relying-party id bound inside the signed client data,
and whether the attestation signature is valid. -/
structure RegistrationResponse where
  id : String
  publicKey : List Nat
  counter : Nat
  deviceType : String
  backedUp : Bool
  transports : Option (List String)
  challenge : Nat
  origin : String
  rpID : String
  signatureValid : Bool
deriving DecidableEq

/-- `registrationInfo` of a verified registration response. -/
structure RegistrationInfo where
  credentialId : String
  credentialPublicKey : List Nat
  counter : Nat
  credentialDeviceType : String
  credentialBackedUp : Bool
  transports : Option (List String)
deriving DecidableEq

structure VerifiedRegistrationResponse where
  verified : Bool
  registrationInfo : Option RegistrationInfo
deriving DecidableEq

/-- Modelled from the spec: the Credential Verifier boundary
(`verifyRegistrationResponse` of the simplewebauthn library, an external
collaborator that is not part of the reviewed sources).  Per the spec it
checks the response against the expected challenge, expected origin and
expected relying-party id and verifies the attestation signature; on success
it reports the registration info extracted from the response. -/
def verifyRegistrationResponse (response : RegistrationResponse)
    (expectedChallenge : Nat) (expectedOrigin expectedRPID : String) :
    VerifiedRegistrationResponse :=
  if response.challenge = expectedChallenge ∧ response.origin = expectedOrigin ∧
      response.rpID = expectedRPID ∧ response.signatureValid = true then
    { verified := true
      registrationInfo := some
        { credentialId := response.id
          credentialPublicKey := response.publicKey
          counter := response.counter
          credentialDeviceType := response.deviceType
          credentialBackedUp := response.backedUp
          transports := response.transports } }
  else { verified := false, registrationInfo := none }

/-- The two exceptions `verifyRegistration` can raise: the thrown
`Error("Missing registration options for account ...")`, and the
primary-key violation raised by the database when the inserted credential id
already exists (`DuplicateCredential` in the spec's taxonomy). -/
inductive RegError where
  | MissingChallenge
  | DuplicateCredential
deriving DecidableEq

/-- JavaScript `name.trim()`: drop whitespace from both ends.  Defined on the
underlying character list so that it evaluates by kernel reduction. -/
def strTrim (s : String) : String :=
  ⟨((s.data.dropWhile Char.isWhitespace).reverse.dropWhile
      Char.isWhitespace).reverse⟩

/-- `db.insert(passkeyTable).values(row)`.  The `id` column is the table's
primary key (data model: a credential id is globally unique — the constraint
lives in the schema, outside the reviewed sources), so the database rejects a
duplicate id; that rejection is the `DuplicateCredential` error. -/
def insertPasskey (tbl : List Passkey) (row : Passkey) :
    Except RegError (List Passkey) :=
  if tbl.any fun p => p.id == row.id then .error .DuplicateCredential
  else .ok (tbl ++ [row])

/-- `verifyRegistration(db, kv, origin, account, name, response)`. -/
def verifyRegistration (db : List Passkey) (kv : Keyv) (now : Nat)
    (origin : OriginUrl) (account : Account) (name : String)
    (response : RegistrationResponse) :
    Except RegError (VerifiedRegistrationResponse × List Passkey) :=
  match kvGet kv.reg now account.id with
  | none => .error .MissingChallenge
  | some options =>
    let result := verifyRegistrationResponse response options.challenge
      origin.origin origin.hostname
    match result.verified, result.registrationInfo with
    | true, some info =>
      match insertPasskey db
        { id := info.credentialId
          accountId := account.id
          name := strTrim name
          publicKey := info.credentialPublicKey
          webauthnUserId := options.userId
          counter := info.counter
          deviceType := info.credentialDeviceType
          backedUp := info.credentialBackedUp
          transports := info.transports
          created := now
          lastUsed := none } with
      | .error e => .error e
      | .ok db2 => .ok (result, db2)
    | _, _ => .ok (result, db)

/-- `getAuthenticationOptions(kv, origin, sessionId)`: stores the freshly
generated options at `passkey/authentication/<sessionId>` with a TTL of
`5 * 60 * 1000` milliseconds and returns them. -/
def getAuthenticationOptions (kv : Keyv) (now : Nat) (origin : OriginUrl)
    (sessionId : String) (challenge : Nat) : RequestOptions × Keyv :=
  let options : RequestOptions := { rpID := origin.hostname, challenge := challenge }
  (options,
    { kv with auth := kvSet kv.auth now sessionId options (some (5 * 60 * 1000)) })

/-- A client assertion response (`AuthenticationResponseJSON`), abstracted to
what the module and the Credential Verifier read from it: the credential id
the authenticator used, the challenge / origin / relying-party id bound in
the signed client data, the new counter embedded in the authenticator data,
and whether the assertion signature is valid against the stored public key. -/
structure AuthenticationResponse where
  id : String
  challenge : Nat
  origin : String
  rpID : String
  counter : Nat
  signatureValid : Bool
deriving DecidableEq

/-- The `credential` argument handed to the verifier:
`{ id, publicKey, counter, transports }` built from the stored passkey row. -/
structure VerifierCredential where
  id : String
  publicKey : List Nat
  counter : Nat
  transports : Option (List String)
deriving DecidableEq

structure VerifiedAuthenticationResponse where
  verified : Bool
  newCounter : Nat
deriving DecidableEq

/-- The two failure categories of the authentication verifier:
signature / origin / relying-party-id / challenge mismatch
(`VerificationFailed`) and counter regression (`PossibleCloneDetected`). -/
inductive VerifierError where
  | VerificationFailed
  | PossibleCloneDetected
deriving DecidableEq

/-- Modelled from the spec: the Credential Verifier boundary
(`verifyAuthenticationResponse` of the simplewebauthn library, an external
collaborator that is not part of the reviewed sources).  It checks the
challenge / origin / relying-party binding and the assertion signature
(failure category `VerificationFailed`), then enforces the counter rule: the
reported counter must exceed the stored one unless both are exactly zero
(failure category `PossibleCloneDetected`).  The library throws on failure;
thrown failures are modelled as `Except.error`. -/
def verifyAuthenticationResponse (response : AuthenticationResponse)
    (expectedChallenge : Nat) (expectedOrigin expectedRPID : String)
    (credential : VerifierCredential) :
    Except VerifierError VerifiedAuthenticationResponse :=
  if response.challenge = expectedChallenge ∧ response.origin = expectedOrigin ∧
      response.rpID = expectedRPID ∧ response.signatureValid = true then
    if credential.counter < response.counter ∨
        (credential.counter = 0 ∧ response.counter = 0) then
      .ok { verified := true, newCounter := response.counter }
    else .error .PossibleCloneDetected
  else .error .VerificationFailed

/-- `db.update(passkeyTable).set({ counter, lastUsed }).where(eq(passkeyTable.id, id))`:
every row whose id matches gets the new counter and a fresh `lastUsed`
timestamp; every other row is untouched. -/
def updateCounterAndLastUsed (tbl : List Passkey) (id : String)
    (newCounter now : Nat) : List Passkey :=
  tbl.map fun p =>
    if p.id == id then { p with counter := newCounter, lastUsed := some now }
    else p

/-- `db.query.passkeyTable.findFirst({ where: { id } })`. -/
def findPasskey (tbl : List Passkey) (id : String) : Option Passkey :=
  tbl.find? fun p => p.id == id

/-- Outcome of `verifyAuthentication`: the TS function returns `undefined`
both when no live challenge exists for the session and when the credential id
is unknown (`undef`), propagates exceptions thrown by the verifier
(`thrown`), and otherwise returns the verifier result together with the
owning account (represented here by its id) and the passkey row as it was
read before any update. -/
inductive AuthResult where
  | undef
  | thrown (e : VerifierError)
  | ok (response : VerifiedAuthenticationResponse) (accountId : String)
      (passkey : Passkey)
deriving DecidableEq

/-- `verifyAuthentication(db, kv, origin, sessionId, response)`.  Returns the
outcome together with the passkey table after the call. -/
def verifyAuthentication (db : List Passkey) (kv : Keyv) (now : Nat)
    (origin : OriginUrl) (sessionId : String)
    (response : AuthenticationResponse) : AuthResult × List Passkey :=
  match kvGet kv.auth now sessionId with
  | none => (.undef, db)
  | some options =>
    match findPasskey db response.id with
    | none => (.undef, db)
    | some passkey =>
      match verifyAuthenticationResponse response options.challenge
        origin.origin origin.hostname
        { id := response.id
          publicKey := passkey.publicKey
          counter := passkey.counter
          transports := passkey.transports } with
      | .error e => (.thrown e, db)
      | .ok result =>
        if result.verified then
          (.ok result passkey.accountId passkey,
            updateCounterAndLastUsed db response.id result.newCounter now)
        else (.ok result passkey.accountId passkey, db)

/-! ### Derived predicates of the verifier boundary -/

/-- The structural condition the registration verifier checks. -/
def regRespMatches (response : RegistrationResponse) (expectedChallenge : Nat)
    (expectedOrigin expectedRPID : String) : Prop :=
  response.challenge = expectedChallenge ∧ response.origin = expectedOrigin ∧
    response.rpID = expectedRPID ∧ response.signatureValid = true

/-- The registration info the verifier extracts from a response. -/
def regInfoOf (response : RegistrationResponse) : RegistrationInfo :=
  { credentialId := response.id
    credentialPublicKey := response.publicKey
    counter := response.counter
    credentialDeviceType := response.deviceType
    credentialBackedUp := response.backedUp
    transports := response.transports }

/-- The structural condition the authentication verifier checks. -/
def authRespMatches (response : AuthenticationResponse)
    (expectedChallenge : Nat) (expectedOrigin expectedRPID : String) : Prop :=
  response.challenge = expectedChallenge ∧ response.origin = expectedOrigin ∧
    response.rpID = expectedRPID ∧ response.signatureValid = true

/-- The counter rule: strictly increasing, except zero-versus-zero. -/
def counterRule (stored reported : Nat) : Prop :=
  stored < reported ∨ (stored = 0 ∧ reported = 0)

/-! ### Concrete fixtures used by the closed theorems below -/

def originW : OriginUrl :=
  { origin := "https://hackers.pub", hostname := "hackers.pub" }

def accountW : Account := { id := "alice", username := "alice" }

def pkW : Passkey :=
  { id := "cred-1", accountId := "alice", name := "my key"
    publicKey := [1, 2, 3], webauthnUserId := "wuid-1", counter := 0
    deviceType := "singleDevice", backedUp := false
    transports := some ["internal"], created := 0, lastUsed := none }

def pkBobW : Passkey :=
  { id := "bob-cred", accountId := "bob", name := "bobs key"
    publicKey := [9, 9], webauthnUserId := "wuid-9", counter := 7
    deviceType := "multiDevice", backedUp := true
    transports := none, created := 0, lastUsed := none }

def authRespW : AuthenticationResponse :=
  { id := "cred-1", challenge := 42, origin := "https://hackers.pub"
    rpID := "hackers.pub", counter := 0, signatureValid := true }

def regRespW : RegistrationResponse :=
  { id := "cred-1", publicKey := [1, 2, 3], counter := 0
    deviceType := "singleDevice", backedUp := false
    transports := some ["internal"], challenge := 7
    origin := "https://hackers.pub", rpID := "hackers.pub"
    signatureValid := true }

def kvEmptyKeyv : Keyv := { reg := kvEmpty, auth := kvEmpty }

/-- Store state after issuing authentication options for session `sess-1` at
time 0 (challenge 42, entry expiring at 300000). -/
def kvAuthW : Keyv :=
  (getAuthenticationOptions kvEmptyKeyv 0 originW "sess-1" 42).snd

/-- Store state after issuing registration options for `alice` at time 0
(challenge 7, no expiry). -/
def kvRegW : Keyv :=
  (getRegistrationOptions kvEmptyKeyv 0 originW accountW [] 7 "wuid-1").snd

/-- The passkey row inserted by the successful registration of `regRespW`
against `kvRegW` at time 5. -/
def rowW : Passkey :=
  { id := "cred-1", accountId := "alice", name := "my key"
    publicKey := [1, 2, 3], webauthnUserId := "wuid-1", counter := 0
    deviceType := "singleDevice", backedUp := false
    transports := some ["internal"], created := 5, lastUsed := none }

/-- `pkW` with stored counter 5, for the counter-monotonicity scenarios. -/
def pk5W : Passkey := { pkW with counter := 5 }

/-- `authRespW` reporting counter 6. -/
def authResp6W : AuthenticationResponse := { authRespW with counter := 6 }

/-- `authRespW` reporting counter 5 (a non-increasing transition from 5). -/
def authResp5W : AuthenticationResponse := { authRespW with counter := 5 }

/-- `regRespW` carrying a wrong challenge (8 instead of the stored 7), so
the verifier refuses it. -/
def regRespBadW : RegistrationResponse := { regRespW with challenge := 8 }

/-- Store state holding both a registration entry for `alice` (challenge 7,
no expiry) and an authentication entry for `sess-1` (challenge 42, expiring
at 300000). -/
def kvBothW : Keyv :=
  (getAuthenticationOptions kvRegW 0 originW "sess-1" 42).snd

/-- The verifier result of the successful registration of `regRespW`. -/
def regResultW : VerifiedRegistrationResponse :=
  { verified := true
    registrationInfo := some
      { credentialId := "cred-1", credentialPublicKey := [1, 2, 3]
        counter := 0, credentialDeviceType := "singleDevice"
        credentialBackedUp := false, transports := some ["internal"] } }

/-! ### Helper lemmas -/

theorem verifyRegistrationResponse_pos (response : RegistrationResponse)
    (expectedChallenge : Nat) (expectedOrigin expectedRPID : String)
    (hc : regRespMatches response expectedChallenge expectedOrigin expectedRPID) :
    verifyRegistrationResponse response expectedChallenge expectedOrigin
      expectedRPID =
      { verified := true, registrationInfo := some (regInfoOf response) } := by
  unfold verifyRegistrationResponse
  split
  · rfl
  · next hnc => exact absurd hc hnc

theorem verifyRegistrationResponse_neg (response : RegistrationResponse)
    (expectedChallenge : Nat) (expectedOrigin expectedRPID : String)
    (hc : ¬regRespMatches response expectedChallenge expectedOrigin
      expectedRPID) :
    verifyRegistrationResponse response expectedChallenge expectedOrigin
      expectedRPID = { verified := false, registrationInfo := none } := by
  unfold verifyRegistrationResponse
  split
  · next hcond => exact absurd hcond hc
  · rfl

theorem verifyAuthenticationResponse_pos (response : AuthenticationResponse)
    (expectedChallenge : Nat) (expectedOrigin expectedRPID : String)
    (credential : VerifierCredential)
    (hc : authRespMatches response expectedChallenge expectedOrigin
      expectedRPID)
    (hcnt : counterRule credential.counter response.counter) :
    verifyAuthenticationResponse response expectedChallenge expectedOrigin
      expectedRPID credential =
      .ok { verified := true, newCounter := response.counter } := by
  unfold verifyAuthenticationResponse
  split
  · split
    · rfl
    · next hnc => exact absurd hcnt hnc
  · next hnc => exact absurd hc hnc

theorem verifyAuthenticationResponse_clone (response : AuthenticationResponse)
    (expectedChallenge : Nat) (expectedOrigin expectedRPID : String)
    (credential : VerifierCredential)
    (hc : authRespMatches response expectedChallenge expectedOrigin
      expectedRPID)
    (hcnt : ¬counterRule credential.counter response.counter) :
    verifyAuthenticationResponse response expectedChallenge expectedOrigin
      expectedRPID credential = .error .PossibleCloneDetected := by
  unfold verifyAuthenticationResponse
  split
  · split
    · next hcond => exact absurd hcond hcnt
    · rfl
  · next hnc => exact absurd hc hnc

theorem verifyAuthenticationResponse_neg (response : AuthenticationResponse)
    (expectedChallenge : Nat) (expectedOrigin expectedRPID : String)
    (credential : VerifierCredential)
    (hc : ¬authRespMatches response expectedChallenge expectedOrigin
      expectedRPID) :
    verifyAuthenticationResponse response expectedChallenge expectedOrigin
      expectedRPID credential = .error .VerificationFailed := by
  unfold verifyAuthenticationResponse
  split
  · next hcond => exact absurd hcond hc
  · rfl

/-- The counter-and-lastUsed update changes matching rows only in their
`counter` and `lastUsed` fields, so looking up the updated id yields the old
row with exactly those two fields replaced. -/
theorem findPasskey_update (tbl : List Passkey) (id : String) (c t : Nat) :
    findPasskey (updateCounterAndLastUsed tbl id c t) id =
      (findPasskey tbl id).map
        fun p => { p with counter := c, lastUsed := some t } := by
  induction tbl with
  | nil => rfl
  | cons p ps ih =>
    by_cases h : p.id = id
    · simp [findPasskey, updateCounterAndLastUsed, List.find?_cons, h]
    · have hb : (p.id == id) = false := by simp [h]
      have hupd : updateCounterAndLastUsed (p :: ps) id c t =
          p :: updateCounterAndLastUsed ps id c t := by
        simp [updateCounterAndLastUsed, h]
      rw [hupd]
      simp only [findPasskey] at ih ⊢
      rw [List.find?_cons, List.find?_cons, hb]
      exact ih

/-- Appending a fresh row to a table holding no row of that id makes lookup
of that id find the new row. -/
theorem findPasskey_append_fresh (tbl : List Passkey) (row : Passkey)
    (h : (tbl.any fun p => p.id == row.id) = false) :
    findPasskey (tbl ++ [row]) row.id = some row := by
  induction tbl with
  | nil => simp [findPasskey, List.find?]
  | cons p ps ih =>
    rw [List.any_cons] at h
    cases hb : (p.id == row.id) with
    | true => rw [hb] at h; simp at h
    | false =>
      rw [hb, Bool.false_or] at h
      simp only [findPasskey, List.cons_append] at ih ⊢
      rw [List.find?_cons, hb]
      exact ih h

/-- Inversion of `verifyRegistration` returning `.ok`: the stored options
were live, and either the verifier accepted the response and the fresh row
was inserted, or the verifier refused it and the table is unchanged. -/
theorem verifyRegistration_ok_inv (db : List Passkey) (kv : Keyv) (now : Nat)
    (origin : OriginUrl) (account : Account) (name : String)
    (response : RegistrationResponse)
    (result : VerifiedRegistrationResponse) (db2 : List Passkey)
    (h : verifyRegistration db kv now origin account name response =
      .ok (result, db2)) :
    ∃ options, kvGet kv.reg now account.id = some options ∧
      result = verifyRegistrationResponse response options.challenge
        origin.origin origin.hostname ∧
      ((result.verified = true ∧
        (db.any fun p => p.id == response.id) = false ∧
        db2 = db ++
          [{ id := response.id
             accountId := account.id
             name := strTrim name
             publicKey := response.publicKey
             webauthnUserId := options.userId
             counter := response.counter
             deviceType := response.deviceType
             backedUp := response.backedUp
             transports := response.transports
             created := now
             lastUsed := none }]) ∨
       (result.verified = false ∧ db2 = db)) := by
  cases hkv : kvGet kv.reg now account.id with
  | none =>
    unfold verifyRegistration at h
    rw [hkv] at h
    exact Except.noConfusion h
  | some options =>
    refine ⟨options, rfl, ?_⟩
    unfold verifyRegistration at h
    rw [hkv] at h
    by_cases hc : regRespMatches response options.challenge origin.origin
      origin.hostname
    · have hpos := verifyRegistrationResponse_pos response options.challenge
        origin.origin origin.hostname hc
      simp only [hpos, regInfoOf, insertPasskey] at h
      by_cases hdup : (db.any fun p => p.id == response.id) = true
      · rw [if_pos hdup] at h
        exact Except.noConfusion h
      · rw [if_neg hdup] at h
        simp only [Except.ok.injEq, Prod.mk.injEq] at h
        refine ⟨by rw [hpos, ← h.1]; rfl, Or.inl ?_⟩
        refine ⟨by rw [← h.1], Bool.not_eq_true _ ▸ hdup, ?_⟩
        rw [← h.2]
    · have hneg := verifyRegistrationResponse_neg response options.challenge
        origin.origin origin.hostname hc
      simp only [hneg] at h
      simp only [Except.ok.injEq, Prod.mk.injEq] at h
      exact ⟨by rw [hneg, ← h.1], Or.inr ⟨by rw [← h.1], h.2.symm⟩⟩


/-- Inversion of `verifyAuthentication` returning `.ok`: the challenge entry
was live, the credential row was found unchanged, the verifier accepted, and
the table after the call is the counter-and-lastUsed update of the table
before it. -/
theorem verifyAuthentication_ok_inv (db : List Passkey) (kv : Keyv)
    (now : Nat) (origin : OriginUrl) (sessionId : String)
    (response : AuthenticationResponse) (r : VerifiedAuthenticationResponse)
    (acct : String) (pk : Passkey) (db2 : List Passkey)
    (h : verifyAuthentication db kv now origin sessionId response =
      (.ok r acct pk, db2)) :
    findPasskey db response.id = some pk ∧ acct = pk.accountId ∧
    (db2 = db ∨
      db2 = updateCounterAndLastUsed db response.id r.newCounter now) := by
  cases hkv : kvGet kv.auth now sessionId with
  | none =>
    unfold verifyAuthentication at h
    simp only [hkv, Prod.mk.injEq] at h
    exact absurd h.1 (by simp)
  | some options =>
    unfold verifyAuthentication at h
    simp only [hkv] at h
    cases hfind : findPasskey db response.id with
    | none =>
      simp only [hfind, Prod.mk.injEq] at h
      exact absurd h.1 (by simp)
    | some passkey =>
      simp only [hfind] at h
      cases hv : verifyAuthenticationResponse response options.challenge
        origin.origin origin.hostname
        { id := response.id
          publicKey := passkey.publicKey
          counter := passkey.counter
          transports := passkey.transports } with
      | error e =>
        simp only [hv, Prod.mk.injEq] at h
        exact absurd h.1 (by simp)
      | ok result =>
        simp only [hv] at h
        by_cases hverif : result.verified = true
        · simp only [hverif, if_true, Prod.mk.injEq, AuthResult.ok.injEq] at h
          obtain ⟨⟨h1, h2, h3⟩, h4⟩ := h
          refine ⟨by rw [← h3], by rw [← h3, ← h2], Or.inr ?_⟩
          rw [← h4, h1]
        · simp only [if_neg hverif, Prod.mk.injEq, AuthResult.ok.injEq] at h
          obtain ⟨⟨h1, h2, h3⟩, h4⟩ := h
          exact ⟨by rw [← h3], by rw [← h3, ← h2], Or.inl h4.symm⟩

/-- A verified registration verifier result carries the info extracted from
the response. -/
theorem verifyRegistrationResponse_info_of_verified
    (response : RegistrationResponse) (expectedChallenge : Nat)
    (expectedOrigin expectedRPID : String)
    (h : (verifyRegistrationResponse response expectedChallenge expectedOrigin
      expectedRPID).verified = true) :
    (verifyRegistrationResponse response expectedChallenge expectedOrigin
      expectedRPID).registrationInfo = some (regInfoOf response) := by
  by_cases hc : regRespMatches response expectedChallenge expectedOrigin
    expectedRPID
  · rw [verifyRegistrationResponse_pos response expectedChallenge
      expectedOrigin expectedRPID hc]
  · rw [verifyRegistrationResponse_neg response expectedChallenge
      expectedOrigin expectedRPID hc] at h
    exact Bool.noConfusion h

/-- An unverified registration verifier result carries no info. -/
theorem verifyRegistrationResponse_info_of_unverified
    (response : RegistrationResponse) (expectedChallenge : Nat)
    (expectedOrigin expectedRPID : String)
    (h : (verifyRegistrationResponse response expectedChallenge expectedOrigin
      expectedRPID).verified = false) :
    (verifyRegistrationResponse response expectedChallenge expectedOrigin
      expectedRPID).registrationInfo = none := by
  by_cases hc : regRespMatches response expectedChallenge expectedOrigin
    expectedRPID
  · rw [verifyRegistrationResponse_pos response expectedChallenge
      expectedOrigin expectedRPID hc] at h
    exact Bool.noConfusion h
  · rw [verifyRegistrationResponse_neg response expectedChallenge
      expectedOrigin expectedRPID hc]

/-- Forward computation of a fully successful authentication call. -/
theorem verifyAuthentication_ok (db : List Passkey) (kv : Keyv) (now : Nat)
    (origin : OriginUrl) (sessionId : String)
    (resp : AuthenticationResponse) (opts : RequestOptions) (pk : Passkey)
    (hkv : kvGet kv.auth now sessionId = some opts)
    (hpk : findPasskey db resp.id = some pk)
    (hc : authRespMatches resp opts.challenge origin.origin origin.hostname)
    (hcnt : counterRule pk.counter resp.counter) :
    verifyAuthentication db kv now origin sessionId resp =
      (.ok { verified := true, newCounter := resp.counter } pk.accountId pk,
        updateCounterAndLastUsed db resp.id resp.counter now) := by
  have hv := verifyAuthenticationResponse_pos resp opts.challenge
    origin.origin origin.hostname
    { id := resp.id, publicKey := pk.publicKey, counter := pk.counter,
      transports := pk.transports } hc hcnt
  unfold verifyAuthentication
  simp only [hkv, hpk, hv, if_true]

/-- Forward computation of an authentication call on which the verifier
throws. -/
theorem verifyAuthentication_thrown (db : List Passkey) (kv : Keyv)
    (now : Nat) (origin : OriginUrl) (sessionId : String)
    (resp : AuthenticationResponse) (opts : RequestOptions) (pk : Passkey)
    (e : VerifierError)
    (hkv : kvGet kv.auth now sessionId = some opts)
    (hpk : findPasskey db resp.id = some pk)
    (hv : verifyAuthenticationResponse resp opts.challenge origin.origin
      origin.hostname
      { id := resp.id, publicKey := pk.publicKey, counter := pk.counter,
        transports := pk.transports } = .error e) :
    verifyAuthentication db kv now origin sessionId resp = (.thrown e, db) := by
  unfold verifyAuthentication
  simp only [hkv, hpk, hv]

/-! ### Claim theorems -/

/-- Claim C4: when the matching challenge entry is absent or expired, a
registration submission fails with the missing-challenge error and an
authentication submission returns the `undefined` missing-challenge result —
for every possible response, so the Credential Verifier is never consulted
and the outcome is in particular never a verification failure. -/
theorem C4_missing_challenge_short_circuits (db : List Passkey) (kv : Keyv)
    (now : Nat) (origin : OriginUrl) (account : Account) (name : String)
    (regResp : RegistrationResponse) (sessionId : String)
    (authResp : AuthenticationResponse)
    (hr : kvGet kv.reg now account.id = none)
    (ha : kvGet kv.auth now sessionId = none) :
    verifyRegistration db kv now origin account name regResp =
      .error .MissingChallenge ∧
    verifyAuthentication db kv now origin sessionId authResp =
      (.undef, db) := by
  constructor
  · unfold verifyRegistration
    rw [hr]
  · unfold verifyAuthentication
    rw [ha]

/-- Claim C4 witness: at time 300001 the authentication entry stored at time
0 with a 5-minute TTL has expired, and no registration entry exists; both
ceremonies fail with their missing-challenge outcome. -/
theorem C4_witness :
    verifyRegistration [] kvAuthW 300001 originW accountW "my key" regRespW =
      .error .MissingChallenge ∧
    verifyAuthentication [] kvAuthW 300001 originW "sess-1" authRespW =
      (.undef, []) :=
  C4_missing_challenge_short_circuits [] kvAuthW 300001 originW accountW
    "my key" regRespW "sess-1" authRespW (by rfl) (by rfl)

/-- Claim C5 (amended): an authentication response naming a credential id
absent from the repository fails — but by returning the very same
`undefined` result that a missing challenge produces, not a distinct
error category — and no store is mutated. -/
theorem C5_unknown_credential (db : List Passkey) (kv : Keyv) (now : Nat)
    (origin : OriginUrl) (sessionId : String) (resp : AuthenticationResponse)
    (opts : RequestOptions)
    (hkv : kvGet kv.auth now sessionId = some opts)
    (hpk : findPasskey db resp.id = none) :
    verifyAuthentication db kv now origin sessionId resp = (.undef, db) := by
  unfold verifyAuthentication
  simp only [hkv, hpk]

/-- Claim C5 witness: a live challenge for `sess-1` together with a response
naming `cred-1`, which is not in the repository, yields the `undefined`
result and an unchanged table. -/
theorem C5_witness :
    verifyAuthentication [pkBobW] kvAuthW 1000 originW "sess-1" authRespW =
      (.undef, [pkBobW]) :=
  C5_unknown_credential [pkBobW] kvAuthW 1000 originW "sess-1" authRespW
    { rpID := "hackers.pub", challenge := 42 } (by rfl) (by rfl)

/-- Claim C5 counterexample: the unknown-credential failure is NOT an error
category distinct from the missing-challenge failure: with a live challenge
and an unknown credential id the call returns exactly the same value as with
no challenge at all (`undefined` in the source; `.undef` here). -/
theorem C5_counterexample :
    verifyAuthentication [] kvAuthW 1000 originW "sess-1" authRespW =
      (.undef, []) ∧
    verifyAuthentication [] kvEmptyKeyv 1000 originW "sess-1" authRespW =
      (.undef, []) ∧
    verifyAuthentication [] kvAuthW 1000 originW "sess-1" authRespW =
      verifyAuthentication [] kvEmptyKeyv 1000 originW "sess-1" authRespW :=
  ⟨by rfl, by rfl, by rfl⟩

/-- Claim C6: issuing authentication options stores the challenge entry in
the authentication key family keyed by the session id with a time-to-live of
exactly 5 minutes: the slot records absolute expiry `now + 5 * 60 * 1000`,
the entry is returned up to that time, and it is treated as absent at every
later time. -/
theorem C6_authentication_ttl (kv : Keyv) (now : Nat) (origin : OriginUrl)
    (sessionId : String) (challenge : Nat) :
    ((getAuthenticationOptions kv now origin sessionId challenge).snd).auth
        sessionId =
      some ((getAuthenticationOptions kv now origin sessionId challenge).fst,
        some (now + 5 * 60 * 1000)) ∧
    (∀ t, t ≤ now + 5 * 60 * 1000 →
      kvGet ((getAuthenticationOptions kv now origin sessionId
          challenge).snd).auth t sessionId =
        some (getAuthenticationOptions kv now origin sessionId
          challenge).fst) ∧
    (∀ t, now + 5 * 60 * 1000 < t →
      kvGet ((getAuthenticationOptions kv now origin sessionId
          challenge).snd).auth t sessionId = none) := by
  refine ⟨by simp [getAuthenticationOptions, kvSet], ?_, ?_⟩
  · intro t ht
    simp [getAuthenticationOptions, kvSet, kvGet, ht]
  · intro t ht
    have hnle : ¬ t ≤ now + 5 * 60 * 1000 := by omega
    simp [getAuthenticationOptions, kvSet, kvGet, hnle]

/-- Claim C6 witness: the entry stored at time 0 for `sess-1` is live at
time 300000 and absent at time 300001. -/
theorem C6_witness :
    kvGet ((getAuthenticationOptions kvEmptyKeyv 0 originW "sess-1"
        42).snd).auth 300000 "sess-1" =
      some (getAuthenticationOptions kvEmptyKeyv 0 originW "sess-1" 42).fst ∧
    kvGet ((getAuthenticationOptions kvEmptyKeyv 0 originW "sess-1"
        42).snd).auth 300001 "sess-1" = none :=
  ⟨(C6_authentication_ttl kvEmptyKeyv 0 originW "sess-1" 42).2.1 300000
      (by omega),
    (C6_authentication_ttl kvEmptyKeyv 0 originW "sess-1" 42).2.2 300001
      (by omega)⟩

/-- Claim C9 (amended): issuing registration options stores the challenge
entry with NO time-to-live at all — the stored slot carries no expiry and
the entry is returned by `get` at every later time, so it never becomes
absent by mere passage of time. -/
theorem C9_registration_no_ttl (kv : Keyv) (now : Nat) (origin : OriginUrl)
    (account : Account) (passkeys : List Passkey) (challenge : Nat)
    (userId : String) :
    ((getRegistrationOptions kv now origin account passkeys challenge
        userId).snd).reg account.id =
      some ((getRegistrationOptions kv now origin account passkeys challenge
        userId).fst, none) ∧
    ∀ t, kvGet ((getRegistrationOptions kv now origin account passkeys
        challenge userId).snd).reg t account.id =
      some (getRegistrationOptions kv now origin account passkeys challenge
        userId).fst := by
  constructor
  · simp [getRegistrationOptions, kvSet]
  · intro t
    simp [getRegistrationOptions, kvSet, kvGet]

/-- Claim C9 counterexample: the registration challenge entry for `alice` is
stored without any expiry and is still returned 10^15 milliseconds (about
31,000 years) later — it never becomes absent, refuting any bounded
time-to-live. -/
theorem C9_counterexample :
    kvRegW.reg "alice" =
      some ((getRegistrationOptions kvEmptyKeyv 0 originW accountW [] 7
        "wuid-1").fst, none) ∧
    kvGet kvRegW.reg 1000000000000000 "alice" =
      some (getRegistrationOptions kvEmptyKeyv 0 originW accountW [] 7
        "wuid-1").fst :=
  ⟨by rfl, by rfl⟩

/-- Claim C2: counter monotonicity at the ceremony level, under the
spec-modelled Credential Verifier contract.  With stored counter 5 a
response reporting counter 6 succeeds and the stored counter becomes 6
(with a fresh lastUsed); with stored counter 5 a response reporting counter
at most 5 fails with `PossibleCloneDetected` and the table — hence the
stored counter — is unchanged; with stored counter 0 a response reporting
counter 0 succeeds. -/
theorem C2_counter_monotonicity (db : List Passkey) (kv : Keyv) (now : Nat)
    (origin : OriginUrl) (sessionId : String) (resp : AuthenticationResponse)
    (opts : RequestOptions) (pk : Passkey)
    (hkv : kvGet kv.auth now sessionId = some opts)
    (hpk : findPasskey db resp.id = some pk)
    (hc : authRespMatches resp opts.challenge origin.origin origin.hostname) :
    (pk.counter = 5 → resp.counter = 6 →
      verifyAuthentication db kv now origin sessionId resp =
        (.ok { verified := true, newCounter := 6 } pk.accountId pk,
          updateCounterAndLastUsed db resp.id 6 now) ∧
      findPasskey (updateCounterAndLastUsed db resp.id 6 now) resp.id =
        some { pk with counter := 6, lastUsed := some now }) ∧
    (pk.counter = 5 → resp.counter ≤ 5 →
      verifyAuthentication db kv now origin sessionId resp =
        (.thrown .PossibleCloneDetected, db)) ∧
    (pk.counter = 0 → resp.counter = 0 →
      verifyAuthentication db kv now origin sessionId resp =
        (.ok { verified := true, newCounter := 0 } pk.accountId pk,
          updateCounterAndLastUsed db resp.id 0 now)) := by
  refine ⟨?_, ?_, ?_⟩
  · intro h5 h6
    have hok := verifyAuthentication_ok db kv now origin sessionId resp opts
      pk hkv hpk hc (by unfold counterRule; omega)
    rw [h6] at hok
    exact ⟨hok, by rw [findPasskey_update, hpk]; rfl⟩
  · intro h5 hle
    have hcnt : ¬ counterRule pk.counter resp.counter := by
      unfold counterRule
      omega
    exact verifyAuthentication_thrown db kv now origin sessionId resp opts pk
      .PossibleCloneDetected hkv hpk
      (verifyAuthenticationResponse_clone resp opts.challenge origin.origin
        origin.hostname
        { id := resp.id, publicKey := pk.publicKey, counter := pk.counter,
          transports := pk.transports } hc hcnt)
  · intro h0 hz
    have hok := verifyAuthentication_ok db kv now origin sessionId resp opts
      pk hkv hpk hc (by unfold counterRule; omega)
    rw [hz] at hok
    exact hok

/-- Claim C2 witness: stored counter 5, reported counter 6 — the call
succeeds and the stored row becomes counter 6 with a fresh lastUsed. -/
theorem C2_witness :
    verifyAuthentication [pk5W] kvAuthW 1000 originW "sess-1" authResp6W =
      (.ok { verified := true, newCounter := 6 } pk5W.accountId pk5W,
        updateCounterAndLastUsed [pk5W] authResp6W.id 6 1000) ∧
    findPasskey (updateCounterAndLastUsed [pk5W] authResp6W.id 6 1000)
        authResp6W.id =
      some { pk5W with counter := 6, lastUsed := some 1000 } :=
  (C2_counter_monotonicity [pk5W] kvAuthW 1000 originW "sess-1" authResp6W
    { rpID := "hackers.pub", challenge := 42 } pk5W (by rfl) (by rfl)
    ⟨rfl, rfl, rfl, rfl⟩).1 rfl rfl

/-- Claim C3: when the Credential Verifier refuses a submitted response, no
store is mutated — the registration ceremony returns the refusing verifier
result with the credential table unchanged (no row inserted), and the
authentication ceremony propagates the thrown verifier error with the
credential table unchanged (no counter or lastUsed update). -/
theorem C3_verifier_failure_no_mutation (db : List Passkey) (kv : Keyv)
    (now : Nat) (origin : OriginUrl) (account : Account) (name : String)
    (regResp : RegistrationResponse) (ropts : CreationOptions)
    (sessionId : String) (authResp : AuthenticationResponse)
    (aopts : RequestOptions) (pk : Passkey) (e : VerifierError)
    (hrkv : kvGet kv.reg now account.id = some ropts)
    (hrfail : ¬ regRespMatches regResp ropts.challenge origin.origin
      origin.hostname)
    (hakv : kvGet kv.auth now sessionId = some aopts)
    (hpk : findPasskey db authResp.id = some pk)
    (hafail : verifyAuthenticationResponse authResp aopts.challenge
      origin.origin origin.hostname
      { id := authResp.id, publicKey := pk.publicKey, counter := pk.counter,
        transports := pk.transports } = .error e) :
    verifyRegistration db kv now origin account name regResp =
      .ok ({ verified := false, registrationInfo := none }, db) ∧
    verifyAuthentication db kv now origin sessionId authResp =
      (.thrown e, db) := by
  constructor
  · have hneg := verifyRegistrationResponse_neg regResp ropts.challenge
      origin.origin origin.hostname hrfail
    unfold verifyRegistration
    simp only [hrkv, hneg]
  · exact verifyAuthentication_thrown db kv now origin sessionId authResp
      aopts pk e hakv hpk hafail

/-- Claim C3 witness: a registration response carrying the wrong challenge
and an authentication response with a non-increasing counter (5 after 5)
both fail, and in both cases the credential table `[pk5W]` comes back
unchanged. -/
theorem C3_witness :
    verifyRegistration [pk5W] kvBothW 100 originW accountW "my key"
        regRespBadW =
      .ok ({ verified := false, registrationInfo := none }, [pk5W]) ∧
    verifyAuthentication [pk5W] kvBothW 100 originW "sess-1" authResp5W =
      (.thrown .PossibleCloneDetected, [pk5W]) :=
  C3_verifier_failure_no_mutation [pk5W] kvBothW 100 originW accountW
    "my key" regRespBadW
    { rpName := RP_NAME, rpID := "hackers.pub", userName := "alice"
      userId := "wuid-1", challenge := 7, excludeCredentials := [] }
    "sess-1" authResp5W { rpID := "hackers.pub", challenge := 42 } pk5W
    .PossibleCloneDetected (by rfl)
    (by intro hmatch; exact absurd hmatch.1 (by decide)) (by rfl) (by rfl)
    (by rfl)

/-- Claim C7: the registration options issued for an account carry an
exclusion list consisting exactly of the ids and advertised transports of
the account's already-registered credentials (empty when it has none); and
every successful (verified) registration inserted a credential id that was
not already present in the table, so it never re-registered an existing
credential id. -/
theorem C7_exclusion_list (kv : Keyv) (now : Nat) (origin : OriginUrl)
    (account : Account) (passkeys : List Passkey) (challenge : Nat)
    (userId : String) :
    ((getRegistrationOptions kv now origin account passkeys challenge
        userId).fst).excludeCredentials =
      passkeys.map (fun p => { id := p.id, transports := p.transports }) ∧
    (passkeys = [] →
      ((getRegistrationOptions kv now origin account passkeys challenge
          userId).fst).excludeCredentials = []) ∧
    (∀ db kv2 now2 name resp result db2,
      verifyRegistration db kv2 now2 origin account name resp =
        .ok (result, db2) →
      result.verified = true →
      ∀ p ∈ db, p.id ≠ resp.id) := by
  refine ⟨rfl, ?_, ?_⟩
  · intro h
    rw [h]
    rfl
  · intro db kv2 now2 name resp result db2 h hverified p hp heq
    obtain ⟨options, hkv, hres, hcase⟩ := verifyRegistration_ok_inv db kv2
      now2 origin account name resp result db2 h
    rcases hcase with ⟨_, hfresh, _⟩ | ⟨hfalse, _⟩
    · have : (db.any fun q => q.id == resp.id) = true :=
        List.any_eq_true.mpr ⟨p, hp, by simp [heq]⟩
      rw [this] at hfresh
      exact Bool.noConfusion hfresh
    · rw [hverified] at hfalse
      exact Bool.noConfusion hfalse

/-- Claim C7 witness: for an account owning `bob-cred` the exclusion list is
exactly `[{ id := "bob-cred", transports := none }]`, and a concrete
successful registration of `cred-1` over a table holding `bob-cred` shows
the inserted id differed from every existing one. -/
theorem C7_witness :
    ((getRegistrationOptions kvEmptyKeyv 0 originW accountW [pkBobW] 7
        "wuid-1").fst).excludeCredentials =
      [{ id := "bob-cred", transports := none }] ∧
    ∀ p ∈ [pkBobW], p.id ≠ regRespW.id :=
  ⟨((C7_exclusion_list kvEmptyKeyv 0 originW accountW [pkBobW] 7
      "wuid-1").1).trans (by rfl),
    (C7_exclusion_list kvEmptyKeyv 0 originW accountW [pkBobW] 7
      "wuid-1").2.2 [pkBobW] kvRegW 5 "my key" regRespW regResultW
      [pkBobW, rowW] (by rfl) (by rfl)⟩

/-- Claim C8 (amended): the value returned by a successful registration DOES
contain the stored public key — its `registrationInfo` carries the same
bytes as the persisted credential row — while a submission the verifier
refuses returns a value with `registrationInfo = none` (no challenge bytes,
no public key) and an unchanged table. -/
theorem C8_success_exposes_public_key (db : List Passkey) (kv : Keyv)
    (now : Nat) (origin : OriginUrl) (account : Account) (name : String)
    (resp : RegistrationResponse) (result : VerifiedRegistrationResponse)
    (db2 : List Passkey)
    (h : verifyRegistration db kv now origin account name resp =
      .ok (result, db2)) :
    (result.verified = true →
      ∃ info p, result.registrationInfo = some info ∧
        findPasskey db2 info.credentialId = some p ∧
        info.credentialPublicKey = p.publicKey) ∧
    (result.verified = false →
      result.registrationInfo = none ∧ db2 = db) := by
  obtain ⟨options, hkv, hres, hcase⟩ := verifyRegistration_ok_inv db kv now
    origin account name resp result db2 h
  constructor
  · intro hverified
    rcases hcase with ⟨_, hfresh, hdb2⟩ | ⟨hfalse, _⟩
    · have hv2 : (verifyRegistrationResponse resp options.challenge
          origin.origin origin.hostname).verified = true := by
        rw [← hres]
        exact hverified
      have hinfo := verifyRegistrationResponse_info_of_verified resp
        options.challenge origin.origin origin.hostname hv2
      refine ⟨regInfoOf resp,
        { id := resp.id, accountId := account.id, name := strTrim name
          publicKey := resp.publicKey, webauthnUserId := options.userId
          counter := resp.counter, deviceType := resp.deviceType
          backedUp := resp.backedUp, transports := resp.transports
          created := now, lastUsed := none },
        by rw [hres]; exact hinfo, ?_, rfl⟩
      rw [hdb2]
      exact findPasskey_append_fresh db _ hfresh
    · rw [hverified] at hfalse
      exact Bool.noConfusion hfalse
  · intro hunverified
    rcases hcase with ⟨htrue, _, _⟩ | ⟨hfalse, hdb2⟩
    · rw [hunverified] at htrue
      exact Bool.noConfusion htrue
    · have hv2 : (verifyRegistrationResponse resp options.challenge
          origin.origin origin.hostname).verified = false := by
        rw [← hres]
        exact hunverified
      refine ⟨?_, hdb2⟩
      rw [hres]
      exact verifyRegistrationResponse_info_of_unverified resp
        options.challenge origin.origin origin.hostname hv2

/-- Claim C8 witness: applying the amended theorem to the concrete
successful registration of `regRespW` exhibits the returned registration
info and the persisted row sharing the same public key bytes. -/
theorem C8_witness :
    ∃ info p, regResultW.registrationInfo = some info ∧
      findPasskey [rowW] info.credentialId = some p ∧
      info.credentialPublicKey = p.publicKey :=
  (C8_success_exposes_public_key [] kvRegW 5 originW accountW "my key"
    regRespW regResultW [rowW] (by rfl)).1 (by rfl)

/-- Claim C8 counterexample: the value returned by a successful registration
submission contains the stored public key: the concrete run returns
`registrationInfo` whose `credentialPublicKey` is `[1, 2, 3]`, exactly the
`publicKey` bytes of the row persisted by the very same call. -/
theorem C8_counterexample :
    verifyRegistration [] kvRegW 5 originW accountW "my key" regRespW =
      .ok (regResultW, [rowW]) ∧
    (regResultW.registrationInfo.map fun info => info.credentialPublicKey) =
      some [1, 2, 3] ∧
    rowW.publicKey = [1, 2, 3] :=
  ⟨by rfl, by rfl, by rfl⟩

/-- Claim C1 counterexample: the challenge entry is NOT consumed by a
successful verification.  A response with counter 0 is verified successfully
at time 1000; resubmitting the very same response at time 2000 — well inside
the 5-minute TTL — is verified successfully AGAIN (it does not fail at all,
let alone with the missing-challenge result), a working replay. -/
theorem C1_counterexample :
    (verifyAuthentication [pkW] kvAuthW 1000 originW "sess-1"
        authRespW).fst =
      .ok { verified := true, newCounter := 0 } "alice" pkW ∧
    (verifyAuthentication
        (verifyAuthentication [pkW] kvAuthW 1000 originW "sess-1"
          authRespW).snd
        kvAuthW 2000 originW "sess-1" authRespW).fst =
      .ok { verified := true, newCounter := 0 } "alice"
        { pkW with counter := 0, lastUsed := some 1000 } :=
  ⟨by rfl, by rfl⟩

/-- Claim C1 (amended): successful verification does not consume the stored
challenge entry (`verifyAuthentication` never writes the challenge store).
While the entry is still unexpired, resubmitting the same
successfully-verified response is re-verified against the same challenge: it
is accepted again exactly when its reported counter is zero, and otherwise
fails with the verifier's `PossibleCloneDetected`; only at a time when the
entry is absent (expired) does the resubmission fail with the
missing-challenge result. -/
theorem C1_no_consumption_replay (db : List Passkey) (kv : Keyv)
    (t1 t2 t3 : Nat) (origin : OriginUrl) (sessionId : String)
    (resp : AuthenticationResponse) (opts : RequestOptions) (pk : Passkey)
    (hkv : kvGet kv.auth t1 sessionId = some opts)
    (hlive : kvGet kv.auth t2 sessionId = some opts)
    (hgone : kvGet kv.auth t3 sessionId = none)
    (hpk : findPasskey db resp.id = some pk)
    (hc : authRespMatches resp opts.challenge origin.origin origin.hostname)
    (hcnt : counterRule pk.counter resp.counter) :
    verifyAuthentication db kv t1 origin sessionId resp =
      (.ok { verified := true, newCounter := resp.counter } pk.accountId pk,
        updateCounterAndLastUsed db resp.id resp.counter t1) ∧
    ((verifyAuthentication
        (updateCounterAndLastUsed db resp.id resp.counter t1) kv t2 origin
        sessionId resp).fst =
      if resp.counter = 0 then
        .ok { verified := true, newCounter := 0 } pk.accountId
          { pk with counter := 0, lastUsed := some t1 }
      else .thrown .PossibleCloneDetected) ∧
    verifyAuthentication (updateCounterAndLastUsed db resp.id resp.counter t1)
        kv t3 origin sessionId resp =
      (.undef, updateCounterAndLastUsed db resp.id resp.counter t1) := by
  have hfind2 : findPasskey (updateCounterAndLastUsed db resp.id resp.counter
      t1) resp.id =
      some { pk with counter := resp.counter, lastUsed := some t1 } := by
    rw [findPasskey_update, hpk]
    rfl
  refine ⟨verifyAuthentication_ok db kv t1 origin sessionId resp opts pk hkv
    hpk hc hcnt, ?_, ?_⟩
  · by_cases hz : resp.counter = 0
    · rw [if_pos hz]
      have hok2 := verifyAuthentication_ok
        (updateCounterAndLastUsed db resp.id resp.counter t1) kv t2 origin
        sessionId resp opts
        { pk with counter := resp.counter, lastUsed := some t1 } hlive hfind2
        hc (Or.inr ⟨hz, hz⟩)
      rw [hok2]
      rw [show ({ pk with counter := resp.counter, lastUsed := some t1 }
        : Passkey) = { pk with counter := 0, lastUsed := some t1 } from by
          rw [hz]]
      rw [hz]
    · rw [if_neg hz]
      have hclone := verifyAuthenticationResponse_clone resp opts.challenge
        origin.origin origin.hostname
        { id := resp.id
          publicKey := pk.publicKey
          counter := resp.counter
          transports := pk.transports } hc
        (by
          show ¬ counterRule resp.counter resp.counter
          unfold counterRule
          omega)
      rw [verifyAuthentication_thrown
        (updateCounterAndLastUsed db resp.id resp.counter t1) kv t2 origin
        sessionId resp opts
        { pk with counter := resp.counter, lastUsed := some t1 }
        .PossibleCloneDetected hlive hfind2 hclone]
  · unfold verifyAuthentication
    rw [hgone]

/-- Claim C1 witness: the amended replay behaviour at the concrete scenario
of the counterexample — accepted again at time 2000 (counter 0), absent at
time 300001. -/
theorem C1_witness :
    verifyAuthentication [pkW] kvAuthW 1000 originW "sess-1" authRespW =
      (.ok { verified := true, newCounter := authRespW.counter }
        pkW.accountId pkW,
        updateCounterAndLastUsed [pkW] authRespW.id authRespW.counter
          1000) ∧
    ((verifyAuthentication
        (updateCounterAndLastUsed [pkW] authRespW.id authRespW.counter 1000)
        kvAuthW 2000 originW "sess-1" authRespW).fst =
      if authRespW.counter = 0 then
        .ok { verified := true, newCounter := 0 } pkW.accountId
          { pkW with counter := 0, lastUsed := some 1000 }
      else .thrown .PossibleCloneDetected) ∧
    verifyAuthentication
        (updateCounterAndLastUsed [pkW] authRespW.id authRespW.counter 1000)
        kvAuthW 300001 originW "sess-1" authRespW =
      (.undef,
        updateCounterAndLastUsed [pkW] authRespW.id authRespW.counter
          1000) :=
  C1_no_consumption_replay [pkW] kvAuthW 1000 2000 300001 originW "sess-1"
    authRespW { rpID := "hackers.pub", challenge := 42 } pkW (by rfl)
    (by rfl) (by rfl) (by rfl) ⟨rfl, rfl, rfl, rfl⟩ (Or.inr ⟨rfl, rfl⟩)

/-- Claim C10: frame property of a successful authentication.  The table
after the call has the same length; every row keeps its id, owning account
id, public key, name, webauthn user id, device type, backed-up flag,
transports and created timestamp; and every row whose id differs from the
response's credential id is completely unchanged — only the matched row's
`counter` and `lastUsed` can change. -/
theorem C10_update_frame (db : List Passkey) (kv : Keyv) (now : Nat)
    (origin : OriginUrl) (sessionId : String) (resp : AuthenticationResponse)
    (r : VerifiedAuthenticationResponse) (acct : String) (pk : Passkey)
    (db2 : List Passkey)
    (h : verifyAuthentication db kv now origin sessionId resp =
      (.ok r acct pk, db2)) :
    db2.length = db.length ∧
    ∀ i (hi : i < db.length) (hi2 : i < db2.length),
      (db2.get ⟨i, hi2⟩).id = (db.get ⟨i, hi⟩).id ∧
      (db2.get ⟨i, hi2⟩).accountId = (db.get ⟨i, hi⟩).accountId ∧
      (db2.get ⟨i, hi2⟩).publicKey = (db.get ⟨i, hi⟩).publicKey ∧
      (db2.get ⟨i, hi2⟩).name = (db.get ⟨i, hi⟩).name ∧
      (db2.get ⟨i, hi2⟩).webauthnUserId = (db.get ⟨i, hi⟩).webauthnUserId ∧
      (db2.get ⟨i, hi2⟩).deviceType = (db.get ⟨i, hi⟩).deviceType ∧
      (db2.get ⟨i, hi2⟩).backedUp = (db.get ⟨i, hi⟩).backedUp ∧
      (db2.get ⟨i, hi2⟩).transports = (db.get ⟨i, hi⟩).transports ∧
      (db2.get ⟨i, hi2⟩).created = (db.get ⟨i, hi⟩).created ∧
      ((db.get ⟨i, hi⟩).id ≠ resp.id → db2.get ⟨i, hi2⟩ = db.get ⟨i, hi⟩) := by
  obtain ⟨-, -, hdb⟩ := verifyAuthentication_ok_inv db kv now origin
    sessionId resp r acct pk db2 h
  rcases hdb with hdb | hdb
  · subst hdb
    exact ⟨rfl, fun i hi hi2 =>
      ⟨rfl, rfl, rfl, rfl, rfl, rfl, rfl, rfl, rfl, fun _ => rfl⟩⟩
  · subst hdb
    refine ⟨by simp [updateCounterAndLastUsed], ?_⟩
    intro i hi hi2
    have hget : (updateCounterAndLastUsed db resp.id r.newCounter now).get
        ⟨i, hi2⟩ =
        (fun p => if p.id == resp.id then
            { p with counter := r.newCounter, lastUsed := some now }
          else p) (db.get ⟨i, hi⟩) := by
      simp only [updateCounterAndLastUsed, List.get_eq_getElem,
        List.getElem_map]
    rw [hget]
    by_cases hid : (db.get ⟨i, hi⟩).id = resp.id <;>
      rw [List.get_eq_getElem] at hid <;> simp [hid]

/-- Claim C10 witness: a concrete successful authentication over a
two-row table — the table keeps its length and the untouched row (index 1,
`bob-cred`) is bitwise unchanged. -/
theorem C10_witness :
    ([{ pkW with counter := 0, lastUsed := some 1000 }, pkBobW]
        : List Passkey).length = ([pkW, pkBobW] : List Passkey).length ∧
    ([{ pkW with counter := 0, lastUsed := some 1000 }, pkBobW]
        : List Passkey).get ⟨1, by decide⟩ =
      ([pkW, pkBobW] : List Passkey).get ⟨1, by decide⟩ := by
  have h := C10_update_frame [pkW, pkBobW] kvAuthW 1000 originW "sess-1"
    authRespW { verified := true, newCounter := 0 } "alice" pkW
    [{ pkW with counter := 0, lastUsed := some 1000 }, pkBobW] (by rfl)
  exact ⟨h.1,
    (h.2 1 (by decide) (by decide)).2.2.2.2.2.2.2.2.2 (by decide)⟩

end HackersPub
